import Mathlib

/-
  Verification of the Virtual Platform Timer core (xen/arch/x86/hvm/vpt.c).

  The embedding models one vCPU's timer state.  Times are nanoseconds:
  s_time_t values are modelled as Int (signed overflow is undefined in C, so
  the unbounded model agrees with every defined execution), uint64 quantities
  as Nat, with reduction modulo 2^64 made explicit at the points where the C
  code performs uint64 arithmetic whose wrap-around is observable
  (the selection key in pt_update_irq, last_plt_gtime updates, period_cycles).

  The struct periodic_time declaration itself (asm/hvm/vpt.h) is not part of
  the sources; its fields are modelled from the spec's data-model section and
  from their uses in vpt.c.  pending_intr_nr is, per the spec, "the number of
  ticks that have fired but not yet been acknowledged" and is modelled as Nat.

  External collaborators (vlapic, vpic, vioapic registers, NOW(),
  hvm_get_guest_time / hvm_set_guest_time, the host one-shot timer) are
  modelled as explicit inputs and state fields; the host timer handle becomes
  the pair timer_armed / timer_deadline on the record.
-/

set_option maxHeartbeats 1000000

/-- 2^64, the modulus of uint64 arithmetic. -/
def u64Mod : Nat := 18446744073709551616

/-- 2^64 - 1, the value -1ULL used to initialise max_lag in pt_update_irq. -/
def u64Max : Nat := 18446744073709551615

/-- uint64 addition (wraps modulo 2^64). -/
def u64add (a b : Nat) : Nat := (a + b) % u64Mod

/-- Interrupt source tag of a periodic timer (PTSRC_lapic / PTSRC_isa). -/
inductive Source where
  | lapic
  | isa
  deriving DecidableEq, Inhabited

/-- Source field of an hvm_intack (hvm_intsrc_pic / hvm_intsrc_lapic). -/
inductive IntSrc where
  | pic
  | lapic
  deriving DecidableEq, Inhabited

/-- The domain's HVM_PARAM_TIMER_MODE parameter. -/
inductive TimerMode where
  | delay_for_missed_ticks
  | no_missed_ticks_pending
  | one_missed_tick_pending
  | no_delay
  deriving DecidableEq, Inhabited

/-- One periodic_time record (struct periodic_time).  The list linkage lives
in the owning vCPU state; cb/priv are abstracted to an optional callback
identifier. -/
structure PeriodicTime where
  source : Source
  irq : Nat
  period : Nat
  period_cycles : Nat
  one_shot : Bool
  scheduled : Int
  last_plt_gtime : Nat
  pending_intr_nr : Nat
  irq_issued : Bool
  do_not_freeze : Bool
  on_list : Bool
  cb : Option Nat
  timer_armed : Bool
  timer_deadline : Int
  deriving DecidableEq, Inhabited

/-- State of the emulated interrupt controllers consulted by pt_irq_masked
and pt_irq_vector (vlapic, vpic pair, vioapic redirection table, the
ISA-IRQ-to-GSI map). -/
structure IrqCtrl where
  vlapic_enabled : Bool
  lvtt_masked : Bool
  accept_pic_intr : Bool
  pic_imr : Nat → Nat
  pic_irq_base : Nat → Nat
  ioapic_mask : Nat → Bool
  ioapic_vector : Nat → Nat
  isa_to_gsi : Nat → Nat

/-- Per-vCPU timer state: the tm_list, the current guest time as returned by
hvm_get_guest_time, the freeze slot v->arch.hvm_vcpu.guest_time, the domain
timer mode and the vCPU's blocked flag. -/
structure VcpuState where
  tm_list : List PeriodicTime
  gtime : Nat
  guest_time_slot : Nat
  mode : TimerMode
  blocked : Bool
  deriving DecidableEq, Inhabited

/-- pt_irq_vector: resolve the guest-visible vector of a record for an
acknowledge source. -/
def pt_irq_vector (ctrl : IrqCtrl) (pt : PeriodicTime) (src : IntSrc) : Nat :=
  if pt.source = Source.lapic then pt.irq
  else
    match src with
    | IntSrc.pic => ctrl.pic_irq_base (pt.irq / 8) + pt.irq % 8
    | IntSrc.lapic => ctrl.ioapic_vector (ctrl.isa_to_gsi pt.irq)

/-- pt_irq_masked: is the record's line masked by the emulated controllers? -/
def pt_irq_masked (ctrl : IrqCtrl) (pt : PeriodicTime) : Bool :=
  if pt.source = Source.lapic then
    !ctrl.vlapic_enabled || ctrl.lvtt_masked
  else
    ((ctrl.pic_imr (pt.irq / 8)).testBit (pt.irq % 8) || !ctrl.accept_pic_intr)
      && ctrl.ioapic_mask (ctrl.isa_to_gsi pt.irq)

/-- pt_process_missed_ticks, acting on one record at host time now. -/
def pt_process_missed_ticks (mode : TimerMode) (now : Int) (pt : PeriodicTime) :
    PeriodicTime :=
  if pt.one_shot then pt
  else
    let missed_gap : Int := now - pt.scheduled
    if missed_gap ≤ 0 then pt
    else
      let missed : Int := missed_gap / (pt.period : Int) + 1
      let pt1 :=
        if mode = TimerMode.no_missed_ticks_pending then
          { pt with do_not_freeze := pt.pending_intr_nr = 0 }
        else
          { pt with pending_intr_nr := pt.pending_intr_nr + missed.toNat }
      { pt1 with scheduled := pt1.scheduled + missed * (pt.period : Int) }

/-- pt_timer_fn: host-timer expiry callback for one record.  The expiry
itself disarms the one-shot host timer; a non-one-shot record advances
scheduled, processes missed ticks and rearms.  (The vcpu_kick at the end has
no effect on the modelled state.) -/
def pt_timer_fn (mode : TimerMode) (now : Int) (pt : PeriodicTime) :
    PeriodicTime :=
  let pt0 := { pt with pending_intr_nr := pt.pending_intr_nr + 1,
                       timer_armed := false }
  if pt0.one_shot then pt0
  else
    let pt1 := { pt0 with scheduled := pt0.scheduled + (pt0.period : Int) }
    let pt2 := pt_process_missed_ticks mode now pt1
    { pt2 with timer_armed := true, timer_deadline := pt2.scheduled }

/-- pt_freeze_time. -/
def pt_freeze_time (st : VcpuState) : VcpuState :=
  if st.mode = TimerMode.delay_for_missed_ticks then
    { st with guest_time_slot := st.gtime }
  else st

/-- pt_thaw_time. -/
def pt_thaw_time (st : VcpuState) : VcpuState :=
  if st.mode = TimerMode.delay_for_missed_ticks then
    if st.guest_time_slot = 0 then st
    else { st with gtime := st.guest_time_slot, guest_time_slot := 0 }
  else st

/-- pt_save_timer: early return when the vCPU is blocked; otherwise stop the
host timer of every record not marked do_not_freeze, then freeze time. -/
def pt_save_timer (st : VcpuState) : VcpuState :=
  if st.blocked then st
  else
    pt_freeze_time
      { st with
        tm_list := st.tm_list.map fun pt =>
          if pt.do_not_freeze then pt else { pt with timer_armed := false } }

/-- pt_restore_timer: process missed ticks and rearm every record, then thaw
time. -/
def pt_restore_timer (now : Int) (st : VcpuState) : VcpuState :=
  pt_thaw_time
    { st with
      tm_list := st.tm_list.map fun pt =>
        let pt1 := pt_process_missed_ticks st.mode now pt
        { pt1 with timer_armed := true, timer_deadline := pt1.scheduled } }

/-- A record is eligible for injection: pending_intr_nr nonzero and its line
not masked (the loop condition of pt_update_irq). -/
def eligible (ctrl : IrqCtrl) (pt : PeriodicTime) : Bool :=
  !pt_irq_masked ctrl pt && pt.pending_intr_nr != 0

/-- The uint64 selection key last_plt_gtime + period_cycles compared against
max_lag in pt_update_irq. -/
def ptKey (pt : PeriodicTime) : Nat :=
  u64add pt.last_plt_gtime pt.period_cycles

/-- The scan loop of pt_update_irq: walk the list keeping the first record
that attains the strict running minimum of the key, starting from threshold
maxLag; return the index of the final earliest_pt.  A record is considered
only when it is eligible and its key is strictly below the running
threshold. -/
def pt_scan (ctrl : IrqCtrl) (maxLag : Nat) : List PeriodicTime → Option Nat
  | [] => none
  | pt :: rest =>
    if eligible ctrl pt = true ∧ ptKey pt < maxLag then
      match pt_scan ctrl (ptKey pt) rest with
      | some j => some (j + 1)
      | none => some 0
    else
      match pt_scan ctrl maxLag rest with
      | some j => some (j + 1)
      | none => none

/-- pt_update_irq: select the eligible record with minimum key (threshold
initialised to -1ULL), mark it irq_issued, and report the asserted line as
(irq, is_lapic); none when no record was selected. -/
def pt_update_irq (ctrl : IrqCtrl) (st : VcpuState) :
    VcpuState × Option (Nat × Bool) :=
  match pt_scan ctrl u64Max st.tm_list with
  | none => (st, none)
  | some j =>
    let pt := st.tm_list.getD j default
    ({ st with tm_list := st.tm_list.set j { pt with irq_issued := true } },
     some (pt.irq, pt.source = Source.lapic))

/-- is_pt_irq: index of the first record with a pending tick, an issued irq
and the acknowledged vector. -/
def is_pt_irq (ctrl : IrqCtrl) (vector : Nat) (src : IntSrc) :
    List PeriodicTime → Option Nat
  | [] => none
  | pt :: rest =>
    if pt.pending_intr_nr ≠ 0 ∧ pt.irq_issued = true ∧
        vector = pt_irq_vector ctrl pt src then some 0
    else (is_pt_irq ctrl vector src rest).map (· + 1)

/-- Result of pt_intr_post: the new vCPU state, the final field values of the
matched record (none when the vector matched no record), and the callback
invoked after the lock is released (none when no record matched or the
record has no callback). -/
structure IntrPostResult where
  st : VcpuState
  matched : Option PeriodicTime
  cb_invoked : Option Nat
  deriving DecidableEq

/-- pt_intr_post: reconcile the acknowledged (vector, source) with the
issuing record. -/
def pt_intr_post (ctrl : IrqCtrl) (vector : Nat) (src : IntSrc)
    (st : VcpuState) : IntrPostResult :=
  match is_pt_irq ctrl vector src st.tm_list with
  | none => ⟨st, none, none⟩
  | some i =>
    let pt0 := st.tm_list.getD i default
    let pt1 := { pt0 with do_not_freeze := false, irq_issued := false }
    if pt1.one_shot then
      let pt2 := { pt1 with on_list := false }
      let st1 := { st with tm_list := st.tm_list.eraseIdx i }
      let st2 :=
        if st1.mode = TimerMode.delay_for_missed_ticks ∧
            st1.gtime < pt2.last_plt_gtime then
          { st1 with gtime := pt2.last_plt_gtime }
        else st1
      ⟨st2, some pt2, pt2.cb⟩
    else
      let pt2 :=
        if st.mode = TimerMode.one_missed_tick_pending then
          { pt1 with last_plt_gtime := st.gtime, pending_intr_nr := 0 }
        else
          { pt1 with last_plt_gtime := u64add pt1.last_plt_gtime pt1.period_cycles,
                     pending_intr_nr := pt1.pending_intr_nr - 1 }
      let st1 := { st with tm_list := st.tm_list.set i pt2 }
      let st2 :=
        if st1.mode = TimerMode.delay_for_missed_ticks ∧
            st1.gtime < pt2.last_plt_gtime then
          { st1 with gtime := pt2.last_plt_gtime }
        else st1
      ⟨st2, some pt2, pt2.cb⟩

/-- The per-record update of pt_reset: zero the pending count, restamp
last_plt_gtime with the current guest time, reschedule at now + period and
rearm the host timer there. -/
def pt_reset_record (now : Int) (g : Nat) (pt : PeriodicTime) : PeriodicTime :=
  { pt with pending_intr_nr := 0,
            last_plt_gtime := g,
            scheduled := now + (pt.period : Int),
            timer_armed := true,
            timer_deadline := now + (pt.period : Int) }

/-- pt_reset. -/
def pt_reset (now : Int) (st : VcpuState) : VcpuState :=
  { st with tm_list := st.tm_list.map (pt_reset_record now st.gtime) }

/-- pt_migrate rebinds every host timer to the vCPU's new physical CPU; no
field of the modelled state changes. -/
def pt_migrate (st : VcpuState) : VcpuState := st

/-- create_periodic_time: build and link a fresh record (destroy has already
detached any previous registration of the caller's storage, so the new
record is simply pushed at the head of the list, as list_add does).  Returns
the new state and the created record. -/
def create_periodic_time (now : Int) (cpu_khz : Nat) (src : Source)
    (period : Nat) (irq : Nat) (one_shot : Bool) (cb : Option Nat)
    (st : VcpuState) : VcpuState × PeriodicTime :=
  let period1 := if period < 900000 ∧ one_shot = false then 900000 else period
  let sched : Int :=
    now + (period1 : Int) +
      (if src = Source.lapic then ((period1 / 2 : Nat) : Int) else 0)
  let pt : PeriodicTime :=
    { source := src
      irq := irq
      period := period1
      period_cycles := period1 * cpu_khz % u64Mod / 1000000
      one_shot := one_shot
      scheduled := sched
      last_plt_gtime := st.gtime
      pending_intr_nr := 0
      irq_issued := false
      do_not_freeze := false
      on_list := true
      cb := cb
      timer_armed := true
      timer_deadline := sched }
  ({ st with tm_list := pt :: st.tm_list }, pt)

/-- destroy_periodic_time on the record at index i of the list: unlink it
(kill_timer then synchronously stops the host timer of the detached
record). -/
def destroy_periodic_time (i : Nat) (st : VcpuState) : VcpuState :=
  { st with tm_list := st.tm_list.eraseIdx i }

/-- One public operation of the VPT core, carrying the external inputs the
C code reads during the call (host time NOW(), controller state, the
acknowledged vector, cpu_khz). Timer expiry is directed at a list index. -/
inductive Op where
  | create (src : Source) (period : Nat) (irq : Nat) (one_shot : Bool)
      (cb : Option Nat) (now : Int) (cpu_khz : Nat)
  | destroy (i : Nat)
  | save
  | restore (now : Int)
  | update_irq (ctrl : IrqCtrl)
  | intr_post (ctrl : IrqCtrl) (vector : Nat) (src : IntSrc)
  | reset (now : Int)
  | migrate
  | timer_fn (i : Nat) (now : Int)

/-- Interpretation of one operation on the vCPU state. -/
def step (st : VcpuState) : Op → VcpuState
  | Op.create src period irq one_shot cb now khz =>
    (create_periodic_time now khz src period irq one_shot cb st).1
  | Op.destroy i => destroy_periodic_time i st
  | Op.save => pt_save_timer st
  | Op.restore now => pt_restore_timer now st
  | Op.update_irq ctrl => (pt_update_irq ctrl st).1
  | Op.intr_post ctrl vector src => (pt_intr_post ctrl vector src st).st
  | Op.reset now => pt_reset now st
  | Op.migrate => pt_migrate st
  | Op.timer_fn i now =>
    { st with
      tm_list :=
        st.tm_list.set i (pt_timer_fn st.mode now (st.tm_list.getD i default)) }

/-- Run a sequence of operations. -/
def exec (st : VcpuState) (ops : List Op) : VcpuState :=
  ops.foldl step st

/-- Does the operation invoke pt_reset? -/
def Op.isReset : Op → Bool
  | Op.reset _ => true
  | _ => false

/-- The spec invariant on one record: irq_issued implies a pending tick. -/
def recInv (pt : PeriodicTime) : Prop :=
  pt.irq_issued = true → 1 ≤ pt.pending_intr_nr

instance : DecidablePred recInv := fun pt => by
  unfold recInv; infer_instance

/-- The spec invariant over a vCPU state. -/
def InvS (st : VcpuState) : Prop :=
  ∀ pt ∈ st.tm_list, recInv pt

instance : DecidablePred InvS := fun st => by
  unfold InvS; infer_instance

/-- An empty initial vCPU state in the given timer mode. -/
def initSt (m : TimerMode) : VcpuState :=
  { tm_list := [], gtime := 0, guest_time_slot := 0, mode := m,
    blocked := false }

/-- An interrupt-controller state in which nothing is masked: the vLAPIC is
enabled with LVTT unmasked, the PIC IMRs are clear and every IOAPIC
redirection entry is unmasked. -/
def ctrlOpen : IrqCtrl :=
  { vlapic_enabled := true, lvtt_masked := false, accept_pic_intr := true,
    pic_imr := fun _ => 0, pic_irq_base := fun _ => 8,
    ioapic_mask := fun _ => false, ioapic_vector := fun _ => 32,
    isa_to_gsi := fun n => n }

/-- Concrete witness sequence: create a 1ms LAPIC timer, let it fire once,
let pt_update_irq issue its interrupt, then pt_reset the vCPU. -/
def opsC1 : List Op :=
  [Op.create Source.lapic 1000000 32 false none 0 1000,
   Op.timer_fn 0 1500000,
   Op.update_irq ctrlOpen,
   Op.reset 0]

/-- Concrete witness sequence: create a 1ms LAPIC timer and let its host
timer expire twice with no acknowledgement in between. -/
def opsC2 : List Op :=
  [Op.create Source.lapic 1000000 32 false none 0 1000,
   Op.timer_fn 0 1500000,
   Op.timer_fn 0 2500000]

/-- A pending, unmasked LAPIC record whose selection key
last_plt_gtime + period_cycles wraps to exactly 2^64 - 1. -/
def pt9 : PeriodicTime :=
  { source := Source.lapic, irq := 40, period := 1000000, period_cycles := 1,
    one_shot := false, scheduled := 1000000,
    last_plt_gtime := 18446744073709551614, pending_intr_nr := 1,
    irq_issued := false, do_not_freeze := false, on_list := true, cb := none,
    timer_armed := true, timer_deadline := 1000000 }

/-- A vCPU state holding only pt9. -/
def st9 : VcpuState :=
  { tm_list := [pt9], gtime := 0, guest_time_slot := 0,
    mode := TimerMode.no_delay, blocked := false }

/-- A periodic record whose scheduled expiry lies in the past. -/
def ptLate : PeriodicTime :=
  { source := Source.isa, irq := 0, period := 1000000, period_cycles := 1000,
    one_shot := false, scheduled := 0, last_plt_gtime := 0,
    pending_intr_nr := 0, irq_issued := false, do_not_freeze := false,
    on_list := true, cb := none, timer_armed := true, timer_deadline := 0 }

/-- A periodic record whose scheduled expiry lies in the future. -/
def ptIdle : PeriodicTime :=
  { ptLate with scheduled := 5000000 }

/-- An eligible LAPIC record with selection key 5000. -/
def ptA : PeriodicTime :=
  { source := Source.lapic, irq := 48, period := 1000000,
    period_cycles := 1000, one_shot := false, scheduled := 0,
    last_plt_gtime := 4000, pending_intr_nr := 1, irq_issued := false,
    do_not_freeze := false, on_list := true, cb := none, timer_armed := true,
    timer_deadline := 0 }

/-- An eligible LAPIC record with selection key 2000, placed after ptA. -/
def ptB : PeriodicTime :=
  { ptA with irq := 49, last_plt_gtime := 1000, pending_intr_nr := 3 }

/-- A state with two competing eligible records; the selector must pick
ptB, whose key is smaller. -/
def stC4 : VcpuState :=
  { tm_list := [ptA, ptB], gtime := 0, guest_time_slot := 0,
    mode := TimerMode.no_delay, blocked := false }

/-- A fired one-shot LAPIC record whose line has been asserted (vector 33)
and not yet acknowledged. -/
def ptOne : PeriodicTime :=
  { source := Source.lapic, irq := 33, period := 2000000,
    period_cycles := 2000, one_shot := true, scheduled := 2000000,
    last_plt_gtime := 5, pending_intr_nr := 1, irq_issued := true,
    do_not_freeze := true, on_list := true, cb := some 7,
    timer_armed := false, timer_deadline := 2000000 }

/-- A state holding only the fired one-shot record ptOne. -/
def stC8 : VcpuState :=
  { tm_list := [ptOne], gtime := 0, guest_time_slot := 0,
    mode := TimerMode.no_delay, blocked := false }

/- ------------------------------------------------------------------ -/
/- Generic list helpers.                                              -/
/- ------------------------------------------------------------------ -/

theorem getD_append_cons {α : Type _} (l1 : List α) (x : α) (l2 : List α)
    (d : α) : (l1 ++ x :: l2).getD l1.length d = x := by
  induction l1 with
  | nil => rfl
  | cons a t ih => simpa using ih

theorem set_append_cons {α : Type _} (l1 : List α) (x y : α) (l2 : List α) :
    (l1 ++ x :: l2).set l1.length y = l1 ++ y :: l2 := by
  induction l1 with
  | nil => rfl
  | cons a t ih => simp [ih]

/- ------------------------------------------------------------------ -/
/- Correctness of the pt_update_irq scan.                              -/
/- ------------------------------------------------------------------ -/

/-- When the scan selects nothing, every eligible record's key is at or
above the threshold. -/
theorem pt_scan_none (ctrl : IrqCtrl) :
    ∀ (maxLag : Nat) (l : List PeriodicTime),
      pt_scan ctrl maxLag l = none →
      ∀ pt ∈ l, eligible ctrl pt = true → maxLag ≤ ptKey pt := by
  intro maxLag l
  induction l generalizing maxLag with
  | nil => intro _ pt hpt; cases hpt
  | cons p rest ih =>
    intro h pt hpt he
    rw [pt_scan] at h
    by_cases hc : eligible ctrl p = true ∧ ptKey p < maxLag
    · rw [if_pos hc] at h
      cases hs : pt_scan ctrl (ptKey p) rest <;> rw [hs] at h <;> simp at h
    · rw [if_neg hc] at h
      cases hs : pt_scan ctrl maxLag rest <;> rw [hs] at h
      · rcases List.mem_cons.mp hpt with rfl | hmem
        · by_contra hlt
          exact hc ⟨he, Nat.lt_of_not_le hlt⟩
        · exact ih maxLag hs pt hmem he
      · simp at h

/-- When the scan selects index j, the list splits as l1 ++ pt :: l2 with
j = l1.length, pt eligible with key below the threshold, pt's key strictly
below the key of every eligible record discovered before it, and at most the
key of every eligible record after it. -/
theorem pt_scan_some (ctrl : IrqCtrl) :
    ∀ (maxLag : Nat) (l : List PeriodicTime) (j : Nat),
      pt_scan ctrl maxLag l = some j →
      ∃ l1 pt l2, l = l1 ++ pt :: l2 ∧ j = l1.length ∧
        eligible ctrl pt = true ∧ ptKey pt < maxLag ∧
        (∀ q ∈ l1, eligible ctrl q = true → ptKey pt < ptKey q) ∧
        (∀ q ∈ l2, eligible ctrl q = true → ptKey pt ≤ ptKey q) := by
  intro maxLag l
  induction l generalizing maxLag with
  | nil => intro j h; rw [pt_scan] at h; cases h
  | cons p rest ih =>
    intro j h
    rw [pt_scan] at h
    by_cases hc : eligible ctrl p = true ∧ ptKey p < maxLag
    · rw [if_pos hc] at h
      cases hs : pt_scan ctrl (ptKey p) rest with
      | none =>
        rw [hs] at h
        have hj : j = 0 := (Option.some.inj h).symm
        subst hj
        refine ⟨[], p, rest, rfl, rfl, hc.1, hc.2, ?_, ?_⟩
        · intro q hq
          cases hq
        · intro q hq hqe
          exact pt_scan_none ctrl (ptKey p) rest hs q hq hqe
      | some j0 =>
        rw [hs] at h
        have hj : j = j0 + 1 := (Option.some.inj h).symm
        subst hj
        obtain ⟨l1, q, l2, hrest, hlen, hqe, hqlt, h1, h2⟩ :=
          ih (ptKey p) j0 hs
        refine ⟨p :: l1, q, l2, by rw [hrest]; rfl, by simp [hlen], hqe,
          Nat.lt_trans hqlt hc.2, ?_, h2⟩
        intro r hr hre
        rcases List.mem_cons.mp hr with rfl | hmem
        · exact hqlt
        · exact h1 r hmem hre
    · rw [if_neg hc] at h
      cases hs : pt_scan ctrl maxLag rest with
      | none =>
        rw [hs] at h
        cases h
      | some j0 =>
        rw [hs] at h
        have hj : j = j0 + 1 := (Option.some.inj h).symm
        subst hj
        obtain ⟨l1, q, l2, hrest, hlen, hqe, hqlt, h1, h2⟩ := ih maxLag j0 hs
        refine ⟨p :: l1, q, l2, by rw [hrest]; rfl, by simp [hlen], hqe, hqlt,
          ?_, h2⟩
        intro r hr hre
        rcases List.mem_cons.mp hr with rfl | hmem
        · exact Nat.lt_of_lt_of_le hqlt
            (Nat.le_of_not_lt fun hlt => hc ⟨hre, hlt⟩)
        · exact h1 r hmem hre

/- ------------------------------------------------------------------ -/
/- Frame lemmas for the per-record functions.                          -/
/- ------------------------------------------------------------------ -/

theorem process_missed_irq_issued (mode : TimerMode) (now : Int)
    (pt : PeriodicTime) :
    (pt_process_missed_ticks mode now pt).irq_issued = pt.irq_issued := by
  simp only [pt_process_missed_ticks]
  split_ifs <;> rfl

theorem process_missed_pending_le (mode : TimerMode) (now : Int)
    (pt : PeriodicTime) :
    pt.pending_intr_nr ≤ (pt_process_missed_ticks mode now pt).pending_intr_nr := by
  simp only [pt_process_missed_ticks]
  split_ifs <;> simp

theorem timer_fn_pending_ge_one (mode : TimerMode) (now : Int)
    (pt : PeriodicTime) :
    1 ≤ (pt_timer_fn mode now pt).pending_intr_nr := by
  simp only [pt_timer_fn]
  split_ifs with h
  · exact Nat.le_add_left 1 _
  · show 1 ≤ (pt_process_missed_ticks mode now
        { pt with pending_intr_nr := pt.pending_intr_nr + 1,
                  timer_armed := false,
                  scheduled := pt.scheduled + (pt.period : Int) }).pending_intr_nr
    exact Nat.le_trans (Nat.le_add_left 1 pt.pending_intr_nr)
      (process_missed_pending_le mode now
        { pt with pending_intr_nr := pt.pending_intr_nr + 1,
                  timer_armed := false,
                  scheduled := pt.scheduled + (pt.period : Int) })

theorem pt_freeze_time_tm_list (s : VcpuState) :
    (pt_freeze_time s).tm_list = s.tm_list := by
  unfold pt_freeze_time
  split_ifs <;> rfl

theorem pt_thaw_time_tm_list (s : VcpuState) :
    (pt_thaw_time s).tm_list = s.tm_list := by
  unfold pt_thaw_time
  split_ifs <;> rfl

theorem eligible_pending_ne_zero (ctrl : IrqCtrl) (pt : PeriodicTime)
    (h : eligible ctrl pt = true) : pt.pending_intr_nr ≠ 0 := by
  unfold eligible at h
  simp only [Bool.and_eq_true, bne_iff_ne, ne_eq] at h
  exact h.2

/-- pt_intr_post leaves the list unchanged, erases the matched index, or
rewrites the matched index with a record whose irq_issued is clear. -/
theorem intr_post_tm_list_cases (ctrl : IrqCtrl) (vector : Nat) (src : IntSrc)
    (st : VcpuState) :
    (pt_intr_post ctrl vector src st).st.tm_list = st.tm_list ∨
    (∃ i, (pt_intr_post ctrl vector src st).st.tm_list
            = st.tm_list.eraseIdx i) ∨
    (∃ i pt2, (pt_intr_post ctrl vector src st).st.tm_list
            = st.tm_list.set i pt2 ∧ pt2.irq_issued = false) := by
  unfold pt_intr_post
  cases hi : is_pt_irq ctrl vector src st.tm_list with
  | none => exact Or.inl rfl
  | some i =>
    simp only
    split_ifs <;>
      first
        | exact Or.inr (Or.inl ⟨i, rfl⟩)
        | exact Or.inr (Or.inr ⟨i, _, rfl, rfl⟩)

/- ------------------------------------------------------------------ -/
/- Preservation of the irq_issued/pending invariant.                   -/
/- ------------------------------------------------------------------ -/

theorem step_preserves_inv (st : VcpuState) (op : Op) (h : InvS st)
    (hnr : op.isReset = false) : InvS (step st op) := by
  cases op with
  | create src period irq one_shot cb now khz =>
    intro pt hpt
    simp only [step, create_periodic_time] at hpt
    rcases List.mem_cons.mp hpt with rfl | hmem
    · intro hi
      cases hi
    · exact h pt hmem
  | destroy i =>
    intro pt hpt
    simp only [step, destroy_periodic_time] at hpt
    exact h pt (List.eraseIdx_subset _ _ hpt)
  | save =>
    intro pt hpt
    simp only [step, pt_save_timer] at hpt
    by_cases hb : st.blocked = true
    · rw [if_pos hb] at hpt
      exact h pt hpt
    · rw [if_neg hb, pt_freeze_time_tm_list] at hpt
      obtain ⟨q, hq, rfl⟩ := List.mem_map.mp hpt
      have hrq := h q hq
      split_ifs with hdnf
      · exact hrq
      · exact hrq
  | restore now =>
    intro pt hpt
    simp only [step, pt_restore_timer, pt_thaw_time_tm_list] at hpt
    obtain ⟨q, hq, rfl⟩ := List.mem_map.mp hpt
    intro hi
    have hi' : (pt_process_missed_ticks st.mode now q).irq_issued = true := hi
    rw [process_missed_irq_issued] at hi'
    exact Nat.le_trans (h q hq hi') (process_missed_pending_le st.mode now q)
  | update_irq ctrl =>
    intro pt hpt
    simp only [step, pt_update_irq] at hpt
    cases hs : pt_scan ctrl u64Max st.tm_list with
    | none =>
      rw [hs] at hpt
      exact h pt hpt
    | some j =>
      rw [hs] at hpt
      simp only at hpt
      rcases List.mem_or_eq_of_mem_set hpt with hmem | rfl
      · exact h pt hmem
      · intro _
        obtain ⟨l1, q, l2, hsplit, hlen, hqe, _, _, _⟩ :=
          pt_scan_some ctrl u64Max st.tm_list j hs
        have hget : st.tm_list.getD j default = q := by
          rw [hsplit, hlen]
          exact getD_append_cons l1 q l2 default
        show 1 ≤ (st.tm_list.getD j default).pending_intr_nr
        rw [hget]
        exact Nat.one_le_iff_ne_zero.mpr (eligible_pending_ne_zero ctrl q hqe)
  | intr_post ctrl vector src =>
    intro pt hpt
    rcases intr_post_tm_list_cases ctrl vector src st with hc | ⟨i, hc⟩ |
      ⟨i, pt2, hc, hpt2⟩
    · rw [show step st (Op.intr_post ctrl vector src)
            = (pt_intr_post ctrl vector src st).st from rfl, hc] at hpt
      exact h pt hpt
    · rw [show step st (Op.intr_post ctrl vector src)
            = (pt_intr_post ctrl vector src st).st from rfl, hc] at hpt
      exact h pt (List.eraseIdx_subset _ _ hpt)
    · rw [show step st (Op.intr_post ctrl vector src)
            = (pt_intr_post ctrl vector src st).st from rfl, hc] at hpt
      rcases List.mem_or_eq_of_mem_set hpt with hmem | rfl
      · exact h pt hmem
      · intro hi
        rw [hpt2] at hi
        cases hi
  | reset now =>
    simp [Op.isReset] at hnr
  | migrate =>
    exact h
  | timer_fn i now =>
    intro pt hpt
    simp only [step] at hpt
    rcases List.mem_or_eq_of_mem_set hpt with hmem | rfl
    · exact h pt hmem
    · intro _
      exact timer_fn_pending_ge_one st.mode now _

theorem exec_preserves_inv (st : VcpuState) (ops : List Op) (h0 : InvS st)
    (hnr : ∀ op ∈ ops, op.isReset = false) : InvS (exec st ops) := by
  induction ops generalizing st with
  | nil => exact h0
  | cons op rest ih =>
    exact ih (step st op)
      (step_preserves_inv st op h0 (hnr op (List.mem_cons_self op rest)))
      (fun o ho => hnr o (List.mem_cons_of_mem op ho))

/-- No record satisfying the ack predicate means is_pt_irq finds nothing. -/
theorem is_pt_irq_eq_none (ctrl : IrqCtrl) (vector : Nat) (src : IntSrc) :
    ∀ l : List PeriodicTime,
      (∀ pt ∈ l, ¬(pt.pending_intr_nr ≠ 0 ∧ pt.irq_issued = true ∧
        vector = pt_irq_vector ctrl pt src)) →
      is_pt_irq ctrl vector src l = none := by
  intro l
  induction l with
  | nil => intro _; rfl
  | cons p rest ih =>
    intro h
    rw [is_pt_irq, if_neg (h p (List.mem_cons_self p rest)),
        ih fun q hq => h q (List.mem_cons_of_mem p hq)]
    rfl

/-- In no_missed_ticks_pending mode the missed-tick processor never changes
pending_intr_nr. -/
theorem no_missed_process_pending (now : Int) (pt : PeriodicTime) :
    (pt_process_missed_ticks TimerMode.no_missed_ticks_pending now pt).pending_intr_nr
      = pt.pending_intr_nr := by
  simp only [pt_process_missed_ticks]
  split_ifs <;> rfl

/- ------------------------------------------------------------------ -/
/- Claim theorems.                                                     -/
/- ------------------------------------------------------------------ -/

/-- C1 (amended): after any sequence of the public operations that does not
invoke pt_reset, every listed record still satisfies
irq_issued -> pending_intr_nr >= 1, provided it held initially. -/
theorem c1_irq_issued_invariant_without_reset (st : VcpuState) (ops : List Op)
    (h0 : InvS st) (hnr : ∀ op ∈ ops, op.isReset = false) :
    InvS (exec st ops) :=
  exec_preserves_inv st ops h0 hnr

/-- C1 counterexample: create a timer, let it fire, let pt_update_irq issue
its interrupt, then pt_reset: the final state has a record with irq_issued
set and pending_intr_nr = 0, so the claimed invariant fails. -/
theorem c1_reset_breaks_invariant :
    ¬ InvS (exec (initSt TimerMode.no_delay) opsC1) := by decide

/-- C1 witness: the amended invariant theorem applied to a concrete
reset-free sequence. -/
theorem c1_witness : InvS (exec (initSt TimerMode.no_delay) opsC2) :=
  c1_irq_issued_invariant_without_reset (initSt TimerMode.no_delay) opsC2
    (by decide) (by decide)

/-- C2 (amended): in no_missed_ticks_pending mode the missed-tick processor
never changes pending_intr_nr, and each pt_timer_fn invocation increases it
by exactly one — so the count grows without bound under repeated expiries
and is not capped at 1. -/
theorem c2_no_missed_ticks_single_increment (now : Int) (pt : PeriodicTime) :
    (pt_process_missed_ticks TimerMode.no_missed_ticks_pending now pt).pending_intr_nr
      = pt.pending_intr_nr ∧
    (pt_timer_fn TimerMode.no_missed_ticks_pending now pt).pending_intr_nr
      = pt.pending_intr_nr + 1 := by
  refine ⟨no_missed_process_pending now pt, ?_⟩
  simp only [pt_timer_fn]
  split_ifs with h
  · rfl
  · show (pt_process_missed_ticks TimerMode.no_missed_ticks_pending now
        { pt with pending_intr_nr := pt.pending_intr_nr + 1,
                  timer_armed := false,
                  scheduled := pt.scheduled + (pt.period : Int) }).pending_intr_nr
      = pt.pending_intr_nr + 1
    rw [no_missed_process_pending]

/-- C2 counterexample: two expiries of a 1 ms timer with no acknowledgement
in between leave pending_intr_nr = 2 > 1 in no_missed_ticks_pending mode. -/
theorem c2_pending_exceeds_one :
    1 < ((exec (initSt TimerMode.no_missed_ticks_pending) opsC2).tm_list.getD 0
        default).pending_intr_nr := by decide

/-- C3 (amended): in delay_for_missed_ticks mode, for a non-one-shot record
with now > scheduled, pt_process_missed_ticks adds missed to pending_intr_nr
(it does not leave it unchanged) and advances scheduled by missed * period,
where missed = (now - scheduled) / period + 1. -/
theorem c3_delay_mode_missed_ticks (now : Int) (pt : PeriodicTime)
    (hos : pt.one_shot = false) (hlt : pt.scheduled < now) :
    (pt_process_missed_ticks TimerMode.delay_for_missed_ticks now pt).pending_intr_nr
      = pt.pending_intr_nr + ((now - pt.scheduled) / (pt.period : Int) + 1).toNat ∧
    (pt_process_missed_ticks TimerMode.delay_for_missed_ticks now pt).scheduled
      = pt.scheduled
          + ((now - pt.scheduled) / (pt.period : Int) + 1) * (pt.period : Int) := by
  simp only [pt_process_missed_ticks]
  rw [if_neg (by simp [hos]), if_neg (by omega), if_neg (by decide)]
  exact ⟨rfl, rfl⟩

/-- C3 counterexample: a non-one-shot record 1.5 ms behind in
delay_for_missed_ticks mode has its pending_intr_nr changed by the
missed-tick processor, contradicting "leaves pending_intr_nr unchanged". -/
theorem c3_pending_changes :
    (pt_process_missed_ticks TimerMode.delay_for_missed_ticks 1500000
        ptLate).pending_intr_nr ≠ ptLate.pending_intr_nr := by decide

/-- C3 witness: the amended theorem applied to the concrete record ptLate at
now = 1.5 ms. -/
theorem c3_witness :
    (pt_process_missed_ticks TimerMode.delay_for_missed_ticks 1500000
        ptLate).pending_intr_nr
      = ptLate.pending_intr_nr
          + ((1500000 - ptLate.scheduled) / (ptLate.period : Int) + 1).toNat ∧
    (pt_process_missed_ticks TimerMode.delay_for_missed_ticks 1500000
        ptLate).scheduled
      = ptLate.scheduled
          + ((1500000 - ptLate.scheduled) / (ptLate.period : Int) + 1)
              * (ptLate.period : Int) :=
  c3_delay_mode_missed_ticks 1500000 ptLate (by decide) (by decide)

/-- C5: the missed-tick processor is a no-op for a one-shot record and when
now <= scheduled; otherwise it advances scheduled by exactly
missed * period with missed = (now - scheduled) / period + 1 computed by
integer division, in every timer mode. -/
theorem c5_missed_ticks_formula (mode : TimerMode) (now : Int)
    (pt : PeriodicTime) :
    (pt.one_shot = true → pt_process_missed_ticks mode now pt = pt) ∧
    (now ≤ pt.scheduled → pt_process_missed_ticks mode now pt = pt) ∧
    (pt.one_shot = false → pt.scheduled < now →
      (pt_process_missed_ticks mode now pt).scheduled
        = pt.scheduled
            + ((now - pt.scheduled) / (pt.period : Int) + 1) * (pt.period : Int)) := by
  refine ⟨?_, ?_, ?_⟩
  · intro h
    simp only [pt_process_missed_ticks]
    rw [if_pos h]
  · intro h
    simp only [pt_process_missed_ticks]
    by_cases hos : pt.one_shot = true
    · rw [if_pos hos]
    · rw [if_neg hos, if_pos (by omega)]
  · intro hos hlt
    simp only [pt_process_missed_ticks]
    rw [if_neg (by simp [hos]), if_neg (by omega)]
    by_cases hm : mode = TimerMode.no_missed_ticks_pending
    · rw [if_pos hm]
    · rw [if_neg hm]

/-- C5 witness: the no-op branch on a record scheduled in the future, and
the advance formula on a record 1.5 ms behind. -/
theorem c5_witness :
    pt_process_missed_ticks TimerMode.no_delay 1000 ptIdle = ptIdle ∧
    (pt_process_missed_ticks TimerMode.no_delay 1500000 ptLate).scheduled
      = ptLate.scheduled
          + ((1500000 - ptLate.scheduled) / (ptLate.period : Int) + 1)
              * (ptLate.period : Int) :=
  ⟨(c5_missed_ticks_formula TimerMode.no_delay 1000 ptIdle).2.1 (by decide),
   (c5_missed_ticks_formula TimerMode.no_delay 1500000 ptLate).2.2
     (by decide) (by decide)⟩

/-- C6: when no listed record has a pending tick with an issued irq and the
acknowledged vector, pt_intr_post changes nothing: the state (records, list
and guest time) is returned unchanged, no record is matched and no callback
is invoked. -/
theorem c6_intr_post_no_match (ctrl : IrqCtrl) (vector : Nat) (src : IntSrc)
    (st : VcpuState)
    (h : ∀ pt ∈ st.tm_list, ¬(pt.pending_intr_nr ≠ 0 ∧ pt.irq_issued = true ∧
      vector = pt_irq_vector ctrl pt src)) :
    pt_intr_post ctrl vector src st = ⟨st, none, none⟩ := by
  unfold pt_intr_post
  rw [is_pt_irq_eq_none ctrl vector src st.tm_list h]

/-- C6 witness: acknowledging vector 99 on a vCPU with no timers returns the
state unchanged with no callback. -/
theorem c6_witness :
    pt_intr_post ctrlOpen 99 IntSrc.lapic (initSt TimerMode.no_delay)
      = ⟨initSt TimerMode.no_delay, none, none⟩ :=
  c6_intr_post_no_match ctrlOpen 99 IntSrc.lapic (initSt TimerMode.no_delay)
    (by intro pt hpt; simp [initSt] at hpt)

/-- C4 (amended): whenever some listed record is eligible (pending tick,
line unmasked) with selection key last_plt_gtime + period_cycles (uint64)
strictly below 2^64 - 1, pt_update_irq asserts exactly one line — that of an
eligible record of minimum key, ties broken by first discovery — and marks
only that record irq_issued.  (Without the key bound the statement fails:
see the wrap-around starvation counterexample.) -/
theorem c4_update_irq_selects_min (ctrl : IrqCtrl) (st : VcpuState)
    (h : ∃ pt ∈ st.tm_list, eligible ctrl pt = true ∧ ptKey pt < u64Max) :
    ∃ l1 pt l2,
      st.tm_list = l1 ++ pt :: l2 ∧
      eligible ctrl pt = true ∧
      (pt_update_irq ctrl st).1
        = { st with tm_list := l1 ++ { pt with irq_issued := true } :: l2 } ∧
      (pt_update_irq ctrl st).2
        = some (pt.irq, decide (pt.source = Source.lapic)) ∧
      (∀ q ∈ l1, eligible ctrl q = true → ptKey pt < ptKey q) ∧
      (∀ q ∈ l2, eligible ctrl q = true → ptKey pt ≤ ptKey q) := by
  cases hs : pt_scan ctrl u64Max st.tm_list with
  | none =>
    exfalso
    obtain ⟨pt, hm, he, hk⟩ := h
    exact absurd hk
      (Nat.not_lt.mpr (pt_scan_none ctrl u64Max st.tm_list hs pt hm he))
  | some j =>
    obtain ⟨l1, q, l2, hsplit, hlen, hqe, hqk, h1, h2⟩ :=
      pt_scan_some ctrl u64Max st.tm_list j hs
    have hget : st.tm_list.getD j default = q := by
      rw [hsplit, hlen]
      exact getD_append_cons l1 q l2 default
    have hset : st.tm_list.set j { q with irq_issued := true }
        = l1 ++ { q with irq_issued := true } :: l2 := by
      rw [hsplit, hlen]
      exact set_append_cons l1 q _ l2
    refine ⟨l1, q, l2, hsplit, hqe, ?_, ?_, h1, h2⟩
    · show (pt_update_irq ctrl st).1 = _
      unfold pt_update_irq
      rw [hs]
      simp only
      rw [hget, hset]
    · unfold pt_update_irq
      rw [hs]
      simp only
      rw [hget]

/-- C4 counterexample: in st9 the record pt9 is eligible, yet pt_update_irq
chooses nothing and asserts no line, because pt9's key is 2^64 - 1 and the
comparison against max_lag = -1ULL is strict. -/
theorem c4_starvation_counterexample :
    eligible ctrlOpen pt9 = true ∧ pt9 ∈ st9.tm_list ∧
    pt_update_irq ctrlOpen st9 = (st9, none) := by decide

/-- C4 witness: the selection theorem applied to the two-record state stC4,
whose second record ptB has the smaller key. -/
theorem c4_witness :
    ∃ l1 pt l2,
      stC4.tm_list = l1 ++ pt :: l2 ∧
      eligible ctrlOpen pt = true ∧
      (pt_update_irq ctrlOpen stC4).1
        = { stC4 with tm_list := l1 ++ { pt with irq_issued := true } :: l2 } ∧
      (pt_update_irq ctrlOpen stC4).2
        = some (pt.irq, decide (pt.source = Source.lapic)) ∧
      (∀ q ∈ l1, eligible ctrlOpen q = true → ptKey pt < ptKey q) ∧
      (∀ q ∈ l2, eligible ctrlOpen q = true → ptKey pt ≤ ptKey q) :=
  c4_update_irq_selects_min ctrlOpen stC4 ⟨ptB, by decide, by decide, by decide⟩

/-- C9: an eligible record whose key last_plt_gtime + period_cycles wraps to
exactly 2^64 - 1 is never selected: with max_lag initialised to -1ULL and a
strict comparison, pt_update_irq asserts no line although pt9 is eligible. -/
theorem c9_wraparound_starvation :
    eligible ctrlOpen pt9 = true ∧ pt9 ∈ st9.tm_list ∧
    ptKey pt9 = u64Max ∧
    pt_update_irq ctrlOpen st9 = (st9, none) := by decide

/-- C7 counterexample: at period = 2^63 and cpu_khz = 2 the uint64 product
period * cpu_khz wraps to 0, so the created record's period_cycles is 0 and
not the claimed period * cpu_khz / 10^6. -/
theorem c7_wrap_counterexample :
    (create_periodic_time 0 2 Source.isa 9223372036854775808 40 false none
        (initSt TimerMode.no_delay)).2.period_cycles
      ≠ 9223372036854775808 * 2 / 1000000 := by decide

/-- C7 (amended): create_periodic_time clamps a sub-0.9 ms period to
900000 ns unless one_shot; the new record has pending_intr_nr,
do_not_freeze and irq_issued clear; scheduled = NOW() + period plus an
extra period/2 for a LAPIC source; period_cycles is the uint64 product
period * cpu_khz — reduced modulo 2^64, as the C multiplication wraps —
divided by 10^6; the record is linked at the head of the vCPU's list with
on_list set and the host timer armed at scheduled. -/
theorem c7_create_periodic_time (now : Int) (cpu_khz : Nat) (src : Source)
    (period : Nat) (irq : Nat) (one_shot : Bool) (cb : Option Nat)
    (st : VcpuState) :
    (create_periodic_time now cpu_khz src period irq one_shot cb st).2.pending_intr_nr
        = 0 ∧
    (create_periodic_time now cpu_khz src period irq one_shot cb st).2.do_not_freeze
        = false ∧
    (create_periodic_time now cpu_khz src period irq one_shot cb st).2.irq_issued
        = false ∧
    (create_periodic_time now cpu_khz src period irq one_shot cb st).2.period
        = (if period < 900000 ∧ one_shot = false then 900000 else period) ∧
    (create_periodic_time now cpu_khz src period irq one_shot cb st).2.scheduled
        = now
          + ((create_periodic_time now cpu_khz src period irq one_shot cb st).2.period : Int)
          + (if src = Source.lapic then
              (((create_periodic_time now cpu_khz src period irq one_shot cb st).2.period
                  / 2 : Nat) : Int)
            else 0) ∧
    (create_periodic_time now cpu_khz src period irq one_shot cb st).2.period_cycles
        = (create_periodic_time now cpu_khz src period irq one_shot cb st).2.period
            * cpu_khz % u64Mod / 1000000 ∧
    (create_periodic_time now cpu_khz src period irq one_shot cb st).2.on_list
        = true ∧
    (create_periodic_time now cpu_khz src period irq one_shot cb st).1.tm_list
        = (create_periodic_time now cpu_khz src period irq one_shot cb st).2
            :: st.tm_list ∧
    (create_periodic_time now cpu_khz src period irq one_shot cb st).2.timer_armed
        = true ∧
    (create_periodic_time now cpu_khz src period irq one_shot cb st).2.timer_deadline
        = (create_periodic_time now cpu_khz src period irq one_shot cb st).2.scheduled :=
  ⟨rfl, rfl, rfl, rfl, rfl, rfl, rfl, rfl, rfl, rfl⟩

/-- C8: when pt_intr_post matches a one-shot record, that record is removed
from the vCPU list, its on_list, irq_issued and do_not_freeze flags are
cleared, and its pending_intr_nr and last_plt_gtime are left untouched. -/
theorem c8_one_shot_ack (ctrl : IrqCtrl) (vector : Nat) (src : IntSrc)
    (st : VcpuState) (i : Nat)
    (hi : is_pt_irq ctrl vector src st.tm_list = some i)
    (hos : (st.tm_list.getD i default).one_shot = true) :
    (pt_intr_post ctrl vector src st).st.tm_list = st.tm_list.eraseIdx i ∧
    ∃ ptf, (pt_intr_post ctrl vector src st).matched = some ptf ∧
      ptf.on_list = false ∧ ptf.irq_issued = false ∧
      ptf.do_not_freeze = false ∧
      ptf.pending_intr_nr = (st.tm_list.getD i default).pending_intr_nr ∧
      ptf.last_plt_gtime = (st.tm_list.getD i default).last_plt_gtime := by
  unfold pt_intr_post
  rw [hi]
  simp only
  rw [if_pos hos]
  constructor
  · split_ifs <;> rfl
  · exact ⟨_, rfl, rfl, rfl, rfl, rfl, rfl⟩

/-- C8 witness: acknowledging vector 33 against the fired one-shot record
ptOne unlinks it and leaves its tick counters untouched. -/
theorem c8_witness :
    (pt_intr_post ctrlOpen 33 IntSrc.lapic stC8).st.tm_list
        = stC8.tm_list.eraseIdx 0 ∧
    ∃ ptf, (pt_intr_post ctrlOpen 33 IntSrc.lapic stC8).matched = some ptf ∧
      ptf.on_list = false ∧ ptf.irq_issued = false ∧
      ptf.do_not_freeze = false ∧
      ptf.pending_intr_nr = (stC8.tm_list.getD 0 default).pending_intr_nr ∧
      ptf.last_plt_gtime = (stC8.tm_list.getD 0 default).last_plt_gtime :=
  c8_one_shot_ack ctrlOpen 33 IntSrc.lapic stC8 0 (by decide) (by decide)

/-- C10: pt_reset touches, in every listed record, only pending_intr_nr
(zeroed), last_plt_gtime (restamped to current guest time), scheduled
(NOW() + period) and the armed host-timer deadline; every other record
field is unchanged. -/
theorem c10_reset_frame (now : Int) (st : VcpuState) (i : Nat)
    (hi : i < st.tm_list.length) :
    (pt_reset now st).tm_list.length = st.tm_list.length ∧
    ((pt_reset now st).tm_list.getD i default).pending_intr_nr = 0 ∧
    ((pt_reset now st).tm_list.getD i default).last_plt_gtime = st.gtime ∧
    ((pt_reset now st).tm_list.getD i default).scheduled
      = now + ((st.tm_list.getD i default).period : Int) ∧
    ((pt_reset now st).tm_list.getD i default).timer_armed = true ∧
    ((pt_reset now st).tm_list.getD i default).timer_deadline
      = ((pt_reset now st).tm_list.getD i default).scheduled ∧
    ((pt_reset now st).tm_list.getD i default).irq_issued
      = (st.tm_list.getD i default).irq_issued ∧
    ((pt_reset now st).tm_list.getD i default).do_not_freeze
      = (st.tm_list.getD i default).do_not_freeze ∧
    ((pt_reset now st).tm_list.getD i default).on_list
      = (st.tm_list.getD i default).on_list ∧
    ((pt_reset now st).tm_list.getD i default).period
      = (st.tm_list.getD i default).period ∧
    ((pt_reset now st).tm_list.getD i default).period_cycles
      = (st.tm_list.getD i default).period_cycles ∧
    ((pt_reset now st).tm_list.getD i default).irq
      = (st.tm_list.getD i default).irq ∧
    ((pt_reset now st).tm_list.getD i default).source
      = (st.tm_list.getD i default).source ∧
    ((pt_reset now st).tm_list.getD i default).one_shot
      = (st.tm_list.getD i default).one_shot ∧
    ((pt_reset now st).tm_list.getD i default).cb
      = (st.tm_list.getD i default).cb := by
  have hmap : (pt_reset now st).tm_list.getD i default
      = pt_reset_record now st.gtime (st.tm_list.getD i default) := by
    simp only [pt_reset]
    rw [List.getD_eq_getElem?_getD, List.getD_eq_getElem?_getD,
        List.getElem?_map, List.getElem?_eq_getElem hi]
    rfl
  rw [hmap]
  exact ⟨by simp [pt_reset], rfl, rfl, rfl, rfl, rfl, rfl, rfl, rfl, rfl, rfl,
    rfl, rfl, rfl, rfl⟩

/-- C10 witness: pt_reset at NOW() = 0 on the single-record state st9. -/
theorem c10_witness :
    (pt_reset 0 st9).tm_list.length = st9.tm_list.length ∧
    ((pt_reset 0 st9).tm_list.getD 0 default).pending_intr_nr = 0 ∧
    ((pt_reset 0 st9).tm_list.getD 0 default).last_plt_gtime = st9.gtime ∧
    ((pt_reset 0 st9).tm_list.getD 0 default).scheduled
      = 0 + ((st9.tm_list.getD 0 default).period : Int) ∧
    ((pt_reset 0 st9).tm_list.getD 0 default).timer_armed = true ∧
    ((pt_reset 0 st9).tm_list.getD 0 default).timer_deadline
      = ((pt_reset 0 st9).tm_list.getD 0 default).scheduled ∧
    ((pt_reset 0 st9).tm_list.getD 0 default).irq_issued
      = (st9.tm_list.getD 0 default).irq_issued ∧
    ((pt_reset 0 st9).tm_list.getD 0 default).do_not_freeze
      = (st9.tm_list.getD 0 default).do_not_freeze ∧
    ((pt_reset 0 st9).tm_list.getD 0 default).on_list
      = (st9.tm_list.getD 0 default).on_list ∧
    ((pt_reset 0 st9).tm_list.getD 0 default).period
      = (st9.tm_list.getD 0 default).period ∧
    ((pt_reset 0 st9).tm_list.getD 0 default).period_cycles
      = (st9.tm_list.getD 0 default).period_cycles ∧
    ((pt_reset 0 st9).tm_list.getD 0 default).irq
      = (st9.tm_list.getD 0 default).irq ∧
    ((pt_reset 0 st9).tm_list.getD 0 default).source
      = (st9.tm_list.getD 0 default).source ∧
    ((pt_reset 0 st9).tm_list.getD 0 default).one_shot
      = (st9.tm_list.getD 0 default).one_shot ∧
    ((pt_reset 0 st9).tm_list.getD 0 default).cb
      = (st9.tm_list.getD 0 default).cb :=
  c10_reset_frame 0 st9 0 (by decide)
